import Mathlib

/-!
# Verification of the Solana-Bootcamp favorites program

Shallow embedding of `src/1-favorite-program/lib.rs`: a single Anchor
instruction handler `set_favorites` that overwrites a per-user `Favorites`
record stored at a program-derived address seeded by the tag `b"favorites"`
and the caller's public key.

The repository source contains only the handler body, the `Favorites` record
declaration (with its `max_len` attributes) and the `SetFavorites` account
constraints.  The runtime that enforces those declarations (signer check,
address derivation, account allocation, bound enforcement, atomic commit)
lives in the Anchor/Solana framework outside this repository, so those parts
are modelled from the specification; the handler body and the size constants
are translated from the source.
-/

namespace FavoritesProgram

/-- A caller identity (an ed25519 public key), modelled abstractly. -/
abbrev Pubkey := Nat

/-- The `Favorites` record from `lib.rs`: a `u64` number, a color string and
a vector of hobby strings.  `u64` is modelled as `Nat`; strings keep their
UTF-8 byte length through `String.utf8ByteSize`. -/
structure Favorites where
  number : Nat
  color : String
  hobbies : List String
deriving DecidableEq

/-- `pub const ANCHOR_DISCRIMINATOR_SIZE: usize = 8;` from `lib.rs`. -/
def ANCHOR_DISCRIMINATOR_SIZE : Nat := 8

/-- `#[max_len(50)]` on `color` in `lib.rs`. -/
def COLOR_MAX_LEN : Nat := 50

/-- First argument of `#[max_len(5, 50)]` on `hobbies` in `lib.rs`. -/
def HOBBIES_MAX_ENTRIES : Nat := 5

/-- Second argument of `#[max_len(5, 50)]` on `hobbies` in `lib.rs`. -/
def HOBBY_MAX_LEN : Nat := 50

/-- Reserved size of a Borsh string of bounded byte length: a 4-byte length
word followed by at most `maxLen` bytes (Anchor `InitSpace` for `String`). -/
def STRING_SPACE (maxLen : Nat) : Nat := 4 + maxLen

/-- Reserved size of a bounded vector of bounded strings: a 4-byte element
count followed by at most `maxEntries` bounded strings (Anchor `InitSpace`
for `Vec<String>`). -/
def VEC_STRING_SPACE (maxEntries maxLen : Nat) : Nat :=
  4 + maxEntries * STRING_SPACE maxLen

/-- `Favorites::INIT_SPACE`, the expansion of `#[derive(InitSpace)]` on the
`Favorites` struct of `lib.rs`: 8 bytes for the `u64`, a bounded string for
`color`, a bounded vector of bounded strings for `hobbies`. -/
def Favorites.INIT_SPACE : Nat :=
  8 + STRING_SPACE COLOR_MAX_LEN + VEC_STRING_SPACE HOBBIES_MAX_ENTRIES HOBBY_MAX_LEN

/-- `space = ANCHOR_DISCRIMINATOR_SIZE + Favorites::INIT_SPACE` from the
`#[account(...)]` constraint on `favorites` in `lib.rs`. -/
def FAVORITES_ACCOUNT_SPACE : Nat := ANCHOR_DISCRIMINATOR_SIZE + Favorites.INIT_SPACE

/-- Borsh wire size of a string: 4-byte length word plus the UTF-8 bytes. -/
def stringBorshSize (s : String) : Nat := 4 + s.utf8ByteSize

/-- Borsh wire size of a vector of strings: 4-byte count word plus the
serialized elements. -/
def vecStringBorshSize (v : List String) : Nat := 4 + (v.map stringBorshSize).sum

/-- Borsh wire size of a `Favorites` record: 8 bytes of `u64` plus the two
string fields. -/
def favoritesBorshSize (f : Favorites) : Nat :=
  8 + stringBorshSize f.color + vecStringBorshSize f.hobbies

/-- Bytes a stored `Favorites` account occupies on the wire: the 8-byte
Anchor discriminator followed by the Borsh-serialized record. -/
def accountSerializedSize (f : Favorites) : Nat :=
  ANCHOR_DISCRIMINATOR_SIZE + favoritesBorshSize f

/-- The bounds declared by the `max_len` attributes in `lib.rs`: `color` at
most 50 bytes, at most 5 hobbies, each at most 50 bytes. -/
def withinBounds (f : Favorites) : Prop :=
  f.color.utf8ByteSize ≤ COLOR_MAX_LEN ∧
  f.hobbies.length ≤ HOBBIES_MAX_ENTRIES ∧
  ∀ h ∈ f.hobbies, h.utf8ByteSize ≤ HOBBY_MAX_LEN

instance (f : Favorites) : Decidable (withinBounds f) := by
  unfold withinBounds; infer_instance

/-- The bytes of the seed literal `b"favorites"` from the `seeds` constraint
in `lib.rs`. -/
def FAVORITES_SEED : List Nat := [102, 97, 118, 111, 114, 105, 116, 101, 115]

/-- A storage address, identified by the seed data that derives it. -/
structure Address where
  tag : List Nat
  owner : Pubkey
deriving DecidableEq

/-- Modelled from the spec: the program-derived-address computation performed
by the Solana runtime for `seeds = [b"favorites", user.key().as_ref()]` is not
part of this repository; the spec describes it as a pure function from the
fixed tag and the caller identity to a unique storage location, so an address
is modelled as the seed pair itself. -/
def deriveAddress (identity : Pubkey) : Address :=
  { tag := FAVORITES_SEED, owner := identity }

/-- On-chain state visible to this program: the record stored (if any) at
each address, and each identity's lamport balance. -/
structure Chain where
  records : Address → Option Favorites
  lamports : Pubkey → Nat

/-- The ways a `set_favorites` call can be rejected, following the spec's
error taxonomy: missing authorization, capacity violation, resource failure. -/
inductive SetFavoritesError where
  | missingSigner
  | colorTooLong
  | tooManyHobbies
  | hobbyTooLong
  | insufficientFunds
deriving DecidableEq

/-- The body of `pub fn set_favorites` in `lib.rs` (lines 27-58): it reads
none of the prior account contents, performs no validation, calls
`set_inner` to replace the whole record with the supplied values, and
returns `Ok(())`.  The `msg!` traces are non-authoritative observability and
are not modelled. -/
def set_favorites_handler (number : Nat) (color : String) (hobbies : List String)
    (_favorites : Favorites) : Except SetFavoritesError Favorites :=
  .ok { number := number, color := color, hobbies := hobbies }

/-- Modelled from the spec: the commit the runtime performs when a call
succeeds — store the new record at the caller's derived address and charge
the creation cost (`rent`) to the caller when the record did not yet exist. -/
def commitFavorites (rent : Nat) (c : Chain) (caller : Pubkey) (fav : Favorites) :
    Chain :=
  let addr := deriveAddress caller
  let cost := if (c.records addr).isNone then rent else 0
  { records := fun a => if a = addr then some fav else c.records a,
    lamports := fun p => if p = caller then c.lamports p - cost else c.lamports p }

/-- Modelled from the spec: the validation the Anchor/Solana runtime performs
around the handler, none of which is code of this repository — the `Signer`
check of the `SetFavorites` accounts struct, the bound enforcement of the
`max_len` attributes (rejected before any state change, per the spec), the
creation-cost check of `init_if_needed`/`payer = user` — followed by the
handler body and the commit.  `rent` is the creation cost of a fresh record. -/
def set_favorites (rent : Nat) (c : Chain) (caller : Pubkey) (signed : Bool)
    (number : Nat) (color : String) (hobbies : List String) :
    Except SetFavoritesError Chain :=
  if signed = false then .error .missingSigner
  else if COLOR_MAX_LEN < color.utf8ByteSize then .error .colorTooLong
  else if HOBBIES_MAX_ENTRIES < hobbies.length then .error .tooManyHobbies
  else if ∃ h ∈ hobbies, HOBBY_MAX_LEN < h.utf8ByteSize then .error .hobbyTooLong
  else if c.lamports caller <
      (if (c.records (deriveAddress caller)).isNone then rent else 0) then
    .error .insufficientFunds
  else
    match set_favorites_handler number color hobbies
        ((c.records (deriveAddress caller)).getD ⟨0, "", []⟩) with
    | .ok fav => .ok (commitFavorites rent c caller fav)
    | .error e => .error e

/-- Modelled from the spec: a call is an atomic transaction — on success the
new chain state is committed, on failure the transaction is rejected and the
prior chain state is kept unchanged. -/
def run_set_favorites (rent : Nat) (c : Chain) (caller : Pubkey) (signed : Bool)
    (number : Nat) (color : String) (hobbies : List String) :
    Chain × Option SetFavoritesError :=
  match set_favorites rent c caller signed number color hobbies with
  | .ok c' => (c', none)
  | .error e => (c, some e)

/-- A concrete empty chain used by witnesses. -/
def emptyChain : Chain :=
  { records := fun _ => none, lamports := fun _ => 1000 }

/-- A concrete chain holding a prior record for identity 1, used by witnesses. -/
def chainWithRecord : Chain :=
  { records := fun a => if a = deriveAddress 1 then some ⟨7, "red", []⟩ else none,
    lamports := fun _ => 1000 }

/-- A color string of 51 bytes, violating the 50-byte bound. -/
def longColor : String := "aaaaaaaaaaaaaaaaaaaaaaaaaaaaaaaaaaaaaaaaaaaaaaaaaaa"

/-! ## Helper lemmas -/

lemma deriveAddress_injective {a b : Pubkey} (h : deriveAddress a = deriveAddress b) :
    a = b :=
  congrArg Address.owner h

lemma commitFavorites_records_self (rent : Nat) (c : Chain) (caller : Pubkey)
    (f : Favorites) :
    (commitFavorites rent c caller f).records (deriveAddress caller) = some f := by
  simp [commitFavorites]

lemma commitFavorites_records_other (rent : Nat) (c : Chain) (caller : Pubkey)
    (f : Favorites) (a : Address) (h : a ≠ deriveAddress caller) :
    (commitFavorites rent c caller f).records a = c.records a := by
  simp [commitFavorites, h]

lemma set_favorites_ok (rent : Nat) (c : Chain) (caller : Pubkey) (number : Nat)
    (color : String) (hobbies : List String)
    (hc : color.utf8ByteSize ≤ COLOR_MAX_LEN)
    (hn : hobbies.length ≤ HOBBIES_MAX_ENTRIES)
    (hh : ∀ h ∈ hobbies, h.utf8ByteSize ≤ HOBBY_MAX_LEN)
    (hf : (if (c.records (deriveAddress caller)).isNone then rent else 0) ≤
      c.lamports caller) :
    set_favorites rent c caller true number color hobbies =
      .ok (commitFavorites rent c caller ⟨number, color, hobbies⟩) := by
  unfold set_favorites set_favorites_handler
  rw [if_neg (by simp), if_neg (not_lt.2 hc), if_neg (not_lt.2 hn),
    if_neg (by rintro ⟨x, hx, hlt⟩; exact absurd hlt (not_lt.2 (hh x hx))),
    if_neg (not_lt.2 hf)]

lemma set_favorites_ok_inv {rent : Nat} {c : Chain} {caller : Pubkey} {signed : Bool}
    {number : Nat} {color : String} {hobbies : List String} {d : Chain}
    (h : set_favorites rent c caller signed number color hobbies = .ok d) :
    signed = true ∧
    color.utf8ByteSize ≤ COLOR_MAX_LEN ∧
    hobbies.length ≤ HOBBIES_MAX_ENTRIES ∧
    (∀ x ∈ hobbies, x.utf8ByteSize ≤ HOBBY_MAX_LEN) ∧
    d = commitFavorites rent c caller ⟨number, color, hobbies⟩ := by
  unfold set_favorites set_favorites_handler at h
  by_cases h1 : signed = false
  · rw [if_pos h1] at h; exact absurd h (by simp)
  rw [if_neg h1] at h
  by_cases h2 : COLOR_MAX_LEN < color.utf8ByteSize
  · rw [if_pos h2] at h; exact absurd h (by simp)
  rw [if_neg h2] at h
  by_cases h3 : HOBBIES_MAX_ENTRIES < hobbies.length
  · rw [if_pos h3] at h; exact absurd h (by simp)
  rw [if_neg h3] at h
  by_cases h4 : ∃ x ∈ hobbies, HOBBY_MAX_LEN < x.utf8ByteSize
  · rw [if_pos h4] at h; exact absurd h (by simp)
  rw [if_neg h4] at h
  by_cases h5 : c.lamports caller <
      (if (c.records (deriveAddress caller)).isNone then rent else 0)
  · rw [if_pos h5] at h; exact absurd h (by simp)
  rw [if_neg h5] at h
  exact ⟨by revert h1; cases signed <;> simp, not_lt.1 h2, not_lt.1 h3,
    fun x hx => not_lt.1 fun hlt => h4 ⟨x, hx, hlt⟩,
    (Except.ok.inj h).symm⟩

lemma run_set_favorites_cases (rent : Nat) (c : Chain) (caller : Pubkey)
    (signed : Bool) (number : Nat) (color : String) (hobbies : List String) :
    (∃ e, run_set_favorites rent c caller signed number color hobbies = (c, some e)) ∨
    run_set_favorites rent c caller signed number color hobbies =
      (commitFavorites rent c caller ⟨number, color, hobbies⟩, none) := by
  unfold run_set_favorites set_favorites set_favorites_handler
  split_ifs <;> first
    | exact Or.inl ⟨_, rfl⟩
    | exact Or.inr rfl

lemma accountSerializedSize_le (f : Favorites) (h : withinBounds f) :
    accountSerializedSize f ≤ FAVORITES_ACCOUNT_SPACE := by
  obtain ⟨hc, hn, hh⟩ := h
  have hsum : (f.hobbies.map stringBorshSize).sum ≤ f.hobbies.length * 54 := by
    calc (f.hobbies.map stringBorshSize).sum
        ≤ (f.hobbies.map stringBorshSize).length • 54 :=
          List.sum_le_card_nsmul _ 54 (by
            intro x hx
            obtain ⟨s, hs, rfl⟩ := List.mem_map.1 hx
            have h50 : s.utf8ByteSize ≤ 50 := hh s hs
            unfold stringBorshSize
            omega)
      _ = f.hobbies.length * 54 := by rw [List.length_map, smul_eq_mul]
  have hn5 : f.hobbies.length ≤ 5 := hn
  have hc50 : f.color.utf8ByteSize ≤ 50 := hc
  have hsize : accountSerializedSize f =
      8 + (8 + (4 + f.color.utf8ByteSize) + (4 + (f.hobbies.map stringBorshSize).sum)) :=
    rfl
  have hspace : FAVORITES_ACCOUNT_SPACE = 344 := by decide
  rw [hsize, hspace]
  omega

/-! ## Claim theorems -/

/-- C1: a valid `set_favorites(number, color, hobbies)` call by an identity
fully overwrites the record at that identity's address with exactly the
supplied tuple — nothing is merged with or retained from the prior record —
so reading that identity's record afterwards returns exactly the
last-written `(number, color, hobbies)`. -/
theorem set_favorites_overwrites_record
    (rent : Nat) (c : Chain) (caller : Pubkey) (number : Nat) (color : String)
    (hobbies : List String)
    (hc : color.utf8ByteSize ≤ COLOR_MAX_LEN)
    (hn : hobbies.length ≤ HOBBIES_MAX_ENTRIES)
    (hh : ∀ h ∈ hobbies, h.utf8ByteSize ≤ HOBBY_MAX_LEN)
    (hf : (if (c.records (deriveAddress caller)).isNone then rent else 0) ≤
      c.lamports caller) :
    ∃ c', set_favorites rent c caller true number color hobbies = .ok c' ∧
      c'.records (deriveAddress caller) =
        some { number := number, color := color, hobbies := hobbies } :=
  ⟨commitFavorites rent c caller ⟨number, color, hobbies⟩,
    set_favorites_ok rent c caller number color hobbies hc hn hh hf,
    commitFavorites_records_self rent c caller _⟩

/-- Witness for C1 at a concrete valid call. -/
theorem set_favorites_overwrites_record_witness :
    ∃ c', set_favorites 500 emptyChain 1 true 42 "blue" ["chess", "reading"] = .ok c' ∧
      c'.records (deriveAddress 1) =
        some { number := 42, color := "blue", hobbies := ["chess", "reading"] } :=
  set_favorites_overwrites_record 500 emptyChain 1 42 "blue" ["chess", "reading"]
    (by decide) (by decide) (by decide) (by decide)

/-- C2: a `set_favorites` call whose `color` exceeds 50 bytes, or whose
`hobbies` has more than 5 entries, or one of whose hobby entries exceeds
50 bytes, fails, and the prior chain state is unchanged — the violation is
detected before any state change. -/
theorem set_favorites_rejects_oversized
    (rent : Nat) (c : Chain) (caller : Pubkey) (signed : Bool) (number : Nat)
    (color : String) (hobbies : List String)
    (hviol : COLOR_MAX_LEN < color.utf8ByteSize ∨
      HOBBIES_MAX_ENTRIES < hobbies.length ∨
      ∃ h ∈ hobbies, HOBBY_MAX_LEN < h.utf8ByteSize) :
    ∃ e, run_set_favorites rent c caller signed number color hobbies = (c, some e) := by
  rcases hcase : set_favorites rent c caller signed number color hobbies with e | d
  · exact ⟨e, by unfold run_set_favorites; rw [hcase]⟩
  · exfalso
    obtain ⟨-, h2, h3, h4, -⟩ := set_favorites_ok_inv hcase
    rcases hviol with hv | hv | hv
    · exact absurd hv (not_lt.2 h2)
    · exact absurd hv (not_lt.2 h3)
    · obtain ⟨x, hx, hlt⟩ := hv
      exact absurd hlt (not_lt.2 (h4 x hx))

/-- Witness for C2: a 51-byte color is rejected and the chain is unchanged. -/
theorem set_favorites_rejects_oversized_witness :
    ∃ e, run_set_favorites 500 emptyChain 1 true 7 longColor [] = (emptyChain, some e) :=
  set_favorites_rejects_oversized 500 emptyChain 1 true 7 longColor []
    (Or.inl (by decide))

/-- C3: the target record address is a pure deterministic function of the
fixed tag `"favorites"` and the caller's identity, and it is injective: two
identities derive the same address exactly when they are equal, so exactly
one record address exists per identity. -/
theorem deriveAddress_deterministic_injective :
    (∀ a : Pubkey, deriveAddress a = { tag := FAVORITES_SEED, owner := a }) ∧
    ∀ a b : Pubkey, deriveAddress a = deriveAddress b ↔ a = b := by
  refine ⟨fun a => rfl, fun a b => ⟨fun h => deriveAddress_injective h, fun h => by rw [h]⟩⟩

/-- C4: a `set_favorites` call whose caller identity did not sign fails with
the missing-signer error and mutates no state. -/
theorem set_favorites_requires_signer
    (rent : Nat) (c : Chain) (caller : Pubkey) (number : Nat) (color : String)
    (hobbies : List String) :
    set_favorites rent c caller false number color hobbies = .error .missingSigner ∧
    run_set_favorites rent c caller false number color hobbies =
      (c, some .missingSigner) :=
  ⟨rfl, rfl⟩

/-- C5: a `set_favorites` call by identity A leaves the record of every
identity B distinct from A unchanged, whatever the call's outcome: the
address derivation ties the written record to A alone. -/
theorem set_favorites_frame
    (rent : Nat) (c : Chain) (A B : Pubkey) (signed : Bool) (number : Nat)
    (color : String) (hobbies : List String) (hne : B ≠ A) :
    (run_set_favorites rent c A signed number color hobbies).1.records
      (deriveAddress B) = c.records (deriveAddress B) := by
  rcases run_set_favorites_cases rent c A signed number color hobbies with ⟨e, he⟩ | hok
  · rw [he]
  · rw [hok]
    exact commitFavorites_records_other rent c A _ _
      (fun h => hne (deriveAddress_injective h))

/-- Witness for C5: identity 1 writing leaves identity 2's record unchanged. -/
theorem set_favorites_frame_witness :
    (run_set_favorites 500 emptyChain 1 true 42 "blue" ["chess"]).1.records
      (deriveAddress 2) = emptyChain.records (deriveAddress 2) :=
  set_favorites_frame 500 emptyChain 1 2 true 42 "blue" ["chess"] (by decide)

/-- C6: every `set_favorites` call is atomic: either it fails and the prior
chain state — the record's previous contents or its absence — is kept
unchanged, or the update fully applies: the caller's record holds exactly
the supplied tuple and every other address is untouched. -/
theorem set_favorites_atomic
    (rent : Nat) (c : Chain) (caller : Pubkey) (signed : Bool) (number : Nat)
    (color : String) (hobbies : List String) :
    (∃ e, run_set_favorites rent c caller signed number color hobbies = (c, some e)) ∨
    (∃ c', run_set_favorites rent c caller signed number color hobbies = (c', none) ∧
      c'.records (deriveAddress caller) =
        some { number := number, color := color, hobbies := hobbies } ∧
      ∀ a, a ≠ deriveAddress caller → c'.records a = c.records a) := by
  rcases run_set_favorites_cases rent c caller signed number color hobbies with he | hok
  · exact Or.inl he
  · exact Or.inr ⟨commitFavorites rent c caller ⟨number, color, hobbies⟩, hok,
      commitFavorites_records_self rent c caller _,
      fun a ha => commitFavorites_records_other rent c caller _ a ha⟩

/-- C7 counterexample: the claimed layout arithmetic is wrong.  The hobbies
region reserved by `#[max_len(5, 50)]` is 4 + 5·(4+50) = 274 bytes, not 254,
and the total reservation `ANCHOR_DISCRIMINATOR_SIZE + Favorites::INIT_SPACE`
is 344 bytes, not 8 + 8 + 54 + 254 = 324. -/
theorem favorites_space_claim_false :
    VEC_STRING_SPACE HOBBIES_MAX_ENTRIES HOBBY_MAX_LEN = 274 ∧
    ¬ VEC_STRING_SPACE HOBBIES_MAX_ENTRIES HOBBY_MAX_LEN = 254 ∧
    FAVORITES_ACCOUNT_SPACE = 344 ∧
    ¬ FAVORITES_ACCOUNT_SPACE = 8 + 8 + 54 + 254 := by decide

/-- C7 amended: the storage reserved at creation is fixed and equals an
8-byte header plus 8 bytes for number plus 54 bytes for color (4-byte length
prefix + 50 bytes) plus 274 bytes for hobbies (4-byte count framing + 5
entries of 4-byte length prefix + 50 bytes each), 344 bytes in total; a
record within the declared bounds never exceeds this reservation, and every
record a successful `set_favorites` call stores fits in it. -/
theorem favorites_space_reservation (f : Favorites) (hf : withinBounds f) :
    FAVORITES_ACCOUNT_SPACE = 8 + 8 + (4 + 50) + (4 + 5 * (4 + 50)) ∧
    FAVORITES_ACCOUNT_SPACE = 344 ∧
    accountSerializedSize f ≤ FAVORITES_ACCOUNT_SPACE ∧
    ∀ rent c caller number color hobbies c' g,
      set_favorites rent c caller true number color hobbies = .ok c' →
      c'.records (deriveAddress caller) = some g →
      accountSerializedSize g ≤ FAVORITES_ACCOUNT_SPACE := by
  refine ⟨by decide, by decide, accountSerializedSize_le f hf, ?_⟩
  intro rent c caller number color hobbies c' g hok hg
  obtain ⟨-, h2, h3, h4, rfl⟩ := set_favorites_ok_inv hok
  rw [commitFavorites_records_self] at hg
  obtain rfl : ({ number := number, color := color, hobbies := hobbies } : Favorites) = g :=
    Option.some.inj hg
  exact accountSerializedSize_le _ ⟨h2, h3, h4⟩

/-- Witness for C7's amended statement at a concrete in-bounds record. -/
theorem favorites_space_reservation_witness :
    withinBounds { number := 42, color := "blue", hobbies := ["chess"] } ∧
    (FAVORITES_ACCOUNT_SPACE = 8 + 8 + (4 + 50) + (4 + 5 * (4 + 50)) ∧
     FAVORITES_ACCOUNT_SPACE = 344 ∧
     accountSerializedSize { number := 42, color := "blue", hobbies := ["chess"] } ≤
       FAVORITES_ACCOUNT_SPACE ∧
     ∀ rent c caller number color hobbies c' g,
       set_favorites rent c caller true number color hobbies = .ok c' →
       c'.records (deriveAddress caller) = some g →
       accountSerializedSize g ≤ FAVORITES_ACCOUNT_SPACE) :=
  ⟨by decide, favorites_space_reservation ⟨42, "blue", ["chess"]⟩ (by decide)⟩

/-- C8: the `set_favorites` handler body itself performs no validation: for
every input, whatever the prior record contents, it returns `Ok` with the
record replaced by exactly the supplied values. -/
theorem set_favorites_handler_no_validation
    (number : Nat) (color : String) (hobbies : List String) (prev : Favorites) :
    set_favorites_handler number color hobbies prev =
      .ok { number := number, color := color, hobbies := hobbies } :=
  rfl

/-- C9: the record stored by a successful `set_favorites` call depends only
on the supplied arguments, never on the prior record contents: two
successful calls with equal arguments, from any two prior chain states,
store identical records. -/
theorem set_favorites_prior_independent
    (rentA rentB : Nat) (cA cB : Chain) (caller : Pubkey) (number : Nat)
    (color : String) (hobbies : List String) (dA dB : Chain)
    (hA : set_favorites rentA cA caller true number color hobbies = .ok dA)
    (hB : set_favorites rentB cB caller true number color hobbies = .ok dB) :
    dA.records (deriveAddress caller) = dB.records (deriveAddress caller) ∧
    dA.records (deriveAddress caller) =
      some { number := number, color := color, hobbies := hobbies } := by
  obtain ⟨-, -, -, -, rfl⟩ := set_favorites_ok_inv hA
  obtain ⟨-, -, -, -, rfl⟩ := set_favorites_ok_inv hB
  rw [commitFavorites_records_self, commitFavorites_records_self]
  exact ⟨rfl, rfl⟩

/-- Witness for C9: the same arguments written over an absent record and
over a different prior record produce the same stored record. -/
theorem set_favorites_prior_independent_witness :
    (set_favorites 500 emptyChain 1 true 42 "blue" ["chess"] =
      .ok (commitFavorites 500 emptyChain 1 ⟨42, "blue", ["chess"]⟩)) ∧
    (set_favorites 500 chainWithRecord 1 true 42 "blue" ["chess"] =
      .ok (commitFavorites 500 chainWithRecord 1 ⟨42, "blue", ["chess"]⟩)) ∧
    ((commitFavorites 500 emptyChain 1 ⟨42, "blue", ["chess"]⟩).records
        (deriveAddress 1) =
      (commitFavorites 500 chainWithRecord 1 ⟨42, "blue", ["chess"]⟩).records
        (deriveAddress 1) ∧
     (commitFavorites 500 emptyChain 1 ⟨42, "blue", ["chess"]⟩).records
        (deriveAddress 1) =
      some { number := 42, color := "blue", hobbies := ["chess"] }) :=
  ⟨set_favorites_ok 500 emptyChain 1 42 "blue" ["chess"]
      (by decide) (by decide) (by decide) (by decide),
   set_favorites_ok 500 chainWithRecord 1 42 "blue" ["chess"]
      (by decide) (by decide) (by decide) (by decide),
   set_favorites_prior_independent 500 500 emptyChain chainWithRecord 1 42 "blue"
      ["chess"] _ _
      (set_favorites_ok 500 emptyChain 1 42 "blue" ["chess"]
        (by decide) (by decide) (by decide) (by decide))
      (set_favorites_ok 500 chainWithRecord 1 42 "blue" ["chess"]
        (by decide) (by decide) (by decide) (by decide))⟩

/-- C10: `set_favorites` is deterministic — for fixed caller, arguments and
pre-state, a successful outcome is unique — and the stored record carries
the hobbies sequence exactly as supplied, order included. -/
theorem set_favorites_deterministic
    (rent : Nat) (c : Chain) (caller : Pubkey) (signed : Bool) (number : Nat)
    (color : String) (hobbies : List String) (c' : Chain)
    (h : set_favorites rent c caller signed number color hobbies = .ok c') :
    (∀ d, set_favorites rent c caller signed number color hobbies = .ok d → d = c') ∧
    ∃ g, c'.records (deriveAddress caller) = some g ∧
      g.number = number ∧ g.color = color ∧ g.hobbies = hobbies := by
  obtain ⟨-, -, -, -, rfl⟩ := set_favorites_ok_inv h
  refine ⟨fun d hd => ?_, ⟨number, color, hobbies⟩,
    commitFavorites_records_self rent c caller _, rfl, rfl, rfl⟩
  obtain ⟨-, -, -, -, rfl⟩ := set_favorites_ok_inv hd
  rfl

/-- Witness for C10 at a concrete call. -/
theorem set_favorites_deterministic_witness :
    (set_favorites 500 emptyChain 1 true 42 "blue" ["chess", "reading"] =
      .ok (commitFavorites 500 emptyChain 1 ⟨42, "blue", ["chess", "reading"]⟩)) ∧
    ((∀ d, set_favorites 500 emptyChain 1 true 42 "blue" ["chess", "reading"] = .ok d →
        d = commitFavorites 500 emptyChain 1 ⟨42, "blue", ["chess", "reading"]⟩) ∧
     ∃ g, (commitFavorites 500 emptyChain 1 ⟨42, "blue", ["chess", "reading"]⟩).records
        (deriveAddress 1) = some g ∧
       g.number = 42 ∧ g.color = "blue" ∧ g.hobbies = ["chess", "reading"]) :=
  ⟨set_favorites_ok 500 emptyChain 1 42 "blue" ["chess", "reading"]
      (by decide) (by decide) (by decide) (by decide),
   set_favorites_deterministic 500 emptyChain 1 true 42 "blue" ["chess", "reading"] _
      (set_favorites_ok 500 emptyChain 1 42 "blue" ["chess", "reading"]
        (by decide) (by decide) (by decide) (by decide))⟩

end FavoritesProgram
